import Mathlib

/-!
Verification of the Option_Alpha analysis/scoring core against its
natural-language specification.

The analysis core (`direction.py`, `scoring.py`, `bsm.py`, `contracts.py`,
`normalization.py`) is documented in the repository (module CLAUDE.md and
the spec) but its Python sources are not part of the checked-out tree, so
the corresponding definitions below are modelled from the spec, as marked
in their doc comments.  The web front-end sources (TypeScript/TSX) are
present and are embedded directly from the source files.
-/

namespace OptionAlpha

/-! ## Signal direction (models/enums.SignalDirection, mirrored in
src/web/src/types/debate.ts) -/

/-- Three-way directional signal, mirroring the `SignalDirection` StrEnum
declared in the backend models and the string-literal union type in
`src/web/src/types/debate.ts`. -/
inductive SignalDirection where
  | bullish
  | bearish
  | neutral
  deriving DecidableEq, Repr

/-! ## Direction classifier (direction.py, modelled from the spec) -/

/-- Modelled from the spec: `direction.py` constant `ADX_TREND_THRESHOLD`
with documented value 15.0 ("Below = NEUTRAL"). -/
def ADX_TREND_THRESHOLD : ℚ := 15

/-- Modelled from the spec: `direction.py`'s `determine_direction(adx, rsi,
sma_alignment)`.  The spec: if ADX is below the fixed trend-strength
threshold, return NEUTRAL regardless of RSI/SMA; otherwise combine RSI's
deviation from 50 and SMA-alignment's sign to produce BULLISH (both point
up), BEARISH (both point down), or NEUTRAL (conflicting signals). -/
def determine_direction (adx rsi sma_alignment : ℚ) : SignalDirection :=
  if adx < ADX_TREND_THRESHOLD then
    .neutral
  else if 50 < rsi ∧ 0 < sma_alignment then
    .bullish
  else if rsi < 50 ∧ sma_alignment < 0 then
    .bearish
  else
    .neutral

/-! ## Front-end direction heuristic
(`getDirection` in the ScanTable component).

The signals record `Record<string, number>` is embedded as a total map
from keys to optional values; `signals['k'] ?? d` becomes
`(signals k).getD d`. -/

/-- Embeds `getDirection` from the ScanTable component: counts bullish vs
bearish votes among RSI (vs 50), SMA alignment (vs 0) and ROC (vs 0); the
per-signal `if/else if` increments are mutually exclusive, so they are
rendered as indicator sums. -/
def getDirection (signals : String → Option ℚ) : String :=
  let rsi := (signals "rsi").getD 50
  let smaAlignment := (signals "sma_alignment").getD 0
  let roc := (signals "roc").getD 0
  let bullCount : Nat :=
    (if rsi > 50 then 1 else 0) + (if smaAlignment > 0 then 1 else 0) +
      (if roc > 0 then 1 else 0)
  let bearCount : Nat :=
    (if rsi < 50 then 1 else 0) + (if smaAlignment < 0 then 1 else 0) +
      (if roc < 0 then 1 else 0)
  if bullCount > bearCount then "Bullish"
  else if bearCount > bullCount then "Bearish"
  else "Neutral"

end OptionAlpha

namespace OptionAlpha

/-! ## BullBearMeter gauge
(src/web/src/components/charts/BullBearMeter.tsx) -/

/-- Embeds the position computation of the `BullBearMeter` component:
converts direction + conviction to a 0-100 gauge position where 0 is
strongly bearish, 50 neutral, 100 strongly bullish. -/
def meterPosition (direction : SignalDirection) (conviction : ℚ) : ℚ :=
  if direction = .bullish then 50 + conviction * 50
  else if direction = .bearish then 50 - conviction * 50
  else 50

/-! ## Debate data transform (src/web/src/types/debate.ts) -/

/-- Embeds `GreeksCited` from src/web/src/types/debate.ts: all fields
nullable. -/
structure GreeksCited where
  delta : Option ℚ
  gamma : Option ℚ
  theta : Option ℚ
  vega : Option ℚ
  rho : Option ℚ

/-- Embeds `AgentResponse` from src/web/src/types/debate.ts. -/
structure AgentResponse where
  agent_role : String
  analysis : String
  key_points : List String
  conviction : ℚ
  contracts_referenced : List String
  greeks_cited : GreeksCited
  model_used : String
  input_tokens : Int
  output_tokens : Int

/-- Embeds `TradeThesis` from src/web/src/types/debate.ts. -/
structure TradeThesis where
  direction : SignalDirection
  conviction : ℚ
  entry_rationale : String
  risk_factors : List String
  recommended_action : String
  bull_summary : String
  bear_summary : String
  model_used : String
  total_tokens : Int
  duration_ms : Int
  disclaimer : String

/-- Embeds the debate status string-literal union of `DebateResult`. -/
inductive DebateStatus where
  | pending
  | running
  | completed
  | failed
  deriving DecidableEq, Repr

/-- Embeds `DebateResult` from src/web/src/types/debate.ts; the nested
`agents` object is flattened into its three fields. -/
structure DebateResult where
  id : Int
  ticker : String
  status : DebateStatus
  thesis : Option TradeThesis
  agents_bull : Option AgentResponse
  agents_bear : Option AgentResponse
  agents_risk : Option AgentResponse
  is_fallback : Bool
  created_at : String

/-- Models the JavaScript expression `s.toLowerCase()`: lower-case every
character. -/
def jsToLowerCase (s : String) : String :=
  s.map Char.toLower

/-- Models the JavaScript expression `s.includes(sub)`: `sub` occurs as a
contiguous substring of `s`. -/
def jsIncludes (s sub : String) : Bool :=
  decide (sub.data <:+: s.data)

/-- Embeds `toDebateResult` from src/web/src/types/debate.ts: wraps a raw
`TradeThesis` into the UI `DebateResult` shape, inferring the missing
metadata. -/
def toDebateResult (thesis : TradeThesis) (id : Int) : DebateResult :=
  { id := id
    ticker := ""
    status := .completed
    thesis := some thesis
    agents_bull := none
    agents_bear := none
    agents_risk := none
    is_fallback := jsIncludes (jsToLowerCase thesis.model_used) "fallback"
    created_at := "" }

/-! ## Greeks table rendering
(src/web/src/components/ticker/GreeksTable.tsx) -/

/-- Models `Number.prototype.toFixed(4)` on an exact rational: round to
four decimal places (half away from zero is irrelevant here since the
call sites pass absolute values) and render with a zero-padded
four-digit fractional part. -/
def toFixed4 (q : ℚ) : String :=
  let n : Int := ⌊q * 10000 + 1 / 2⌋
  let ip := n / 10000
  let fp := (n % 10000).toNat
  let fpStr := toString fp
  toString ip ++ "." ++
    (String.mk (List.replicate (4 - fpStr.length) '0') ++ fpStr)

/-- Embeds `formatDollarImpact` from GreeksTable.tsx: a minus sign for
negative values, then a dollar sign, the absolute value to four decimal
places, and the suffix. -/
def formatDollarImpact (value : ℚ) (suffix : String) : String :=
  let sign := if value < 0 then "-" else ""
  sign ++ "$" ++ toFixed4 |value| ++ suffix

/-- Embeds the text produced by the theta column cell of GreeksTable.tsx:
"N/A" for a null theta, otherwise `formatDollarImpact(v, '/day')` (the
surrounding color span is presentation only). -/
def thetaCellText (v : Option ℚ) : String :=
  match v with
  | none => "N/A"
  | some x => formatDollarImpact x "/day"

/-! ## Pricing engine (bsm.py, modelled from the spec)

Floating-point arithmetic is modelled over the reals. -/

/-- Standard normal probability density. -/
noncomputable def normalPDF (x : ℝ) : ℝ :=
  (1 / Real.sqrt (2 * Real.pi)) * Real.exp (-(x ^ 2) / 2)

/-- Standard normal cumulative distribution (models `scipy.stats.norm.cdf`
used by `bsm.py`). -/
noncomputable def normalCDF (x : ℝ) : ℝ :=
  ∫ t in Set.Iic x, normalPDF t

/-- Call/put discriminator of an option contract. -/
inductive OptionType where
  | call
  | put
  deriving DecidableEq, Repr

/-- Modelled from the spec: `PricingInputs` — spot, strike,
time-to-expiration in years, risk-free rate, volatility, option type. -/
structure PricingInputs where
  spot : ℝ
  strike : ℝ
  tau : ℝ
  rate : ℝ
  sigma : ℝ
  optType : OptionType

/-- Black-Scholes-Merton d1 term. -/
noncomputable def bsmD1 (p : PricingInputs) : ℝ :=
  (Real.log (p.spot / p.strike) + (p.rate + p.sigma ^ 2 / 2) * p.tau) /
    (p.sigma * Real.sqrt p.tau)

/-- Black-Scholes-Merton d2 term. -/
noncomputable def bsmD2 (p : PricingInputs) : ℝ :=
  bsmD1 p - p.sigma * Real.sqrt p.tau

/-- Modelled from the spec: the closed-form BSM European option price
from `bsm.py`. -/
noncomputable def bsmPrice (p : PricingInputs) : ℝ :=
  match p.optType with
  | .call =>
    p.spot * normalCDF (bsmD1 p) -
      p.strike * Real.exp (-p.rate * p.tau) * normalCDF (bsmD2 p)
  | .put =>
    p.strike * Real.exp (-p.rate * p.tau) * normalCDF (-bsmD2 p) -
      p.spot * normalCDF (-bsmD1 p)

/-- BSM vega, used as the Newton-Raphson derivative by the IV solver. -/
noncomputable def bsmVega (p : PricingInputs) : ℝ :=
  p.spot * normalPDF (bsmD1 p) * Real.sqrt p.tau

/-- Calendar days per year used for the theta unit conversion. -/
def DAYS_PER_YEAR : ℝ := 365

/-- The standard annualized BSM theta. -/
noncomputable def bsmThetaAnnual (p : PricingInputs) : ℝ :=
  match p.optType with
  | .call =>
    -(p.spot * normalPDF (bsmD1 p) * p.sigma) / (2 * Real.sqrt p.tau) -
      p.rate * p.strike * Real.exp (-p.rate * p.tau) * normalCDF (bsmD2 p)
  | .put =>
    -(p.spot * normalPDF (bsmD1 p) * p.sigma) / (2 * Real.sqrt p.tau) +
      p.rate * p.strike * Real.exp (-p.rate * p.tau) * normalCDF (-bsmD2 p)

/-- Modelled from the spec: `OptionGreeks` — delta, gamma, theta
(per-day), vega, rho, always fully populated by the pricing engine. -/
structure OptionGreeks where
  delta : ℝ
  gamma : ℝ
  theta : ℝ
  vega : ℝ
  rho : ℝ

/-- Modelled from the spec: the analytic Greeks produced by `bsm.py`;
theta is the annualized theta divided by 365 (per calendar day). -/
noncomputable def bsmGreeks (p : PricingInputs) : OptionGreeks :=
  { delta :=
      match p.optType with
      | .call => normalCDF (bsmD1 p)
      | .put => normalCDF (bsmD1 p) - 1
    gamma := normalPDF (bsmD1 p) / (p.spot * p.sigma * Real.sqrt p.tau)
    theta := bsmThetaAnnual p / DAYS_PER_YEAR
    vega := bsmVega p
    rho :=
      match p.optType with
      | .call =>
        p.strike * p.tau * Real.exp (-p.rate * p.tau) * normalCDF (bsmD2 p)
      | .put =>
        -(p.strike * p.tau * Real.exp (-p.rate * p.tau) *
          normalCDF (-bsmD2 p)) }

/-! ## Implied-volatility solver (bsm.py, modelled from the spec) -/

/-- Documented `bsm.py` constant: Newton-Raphson iteration cap. -/
def BSM_MAX_ITERATIONS : Nat := 50

/-- Modelled from the spec: bisection fallback iteration cap. -/
def BISECTION_MAX_ITERATIONS : Nat := 100

/-- Modelled from the spec: the fixed convergence tolerance on the price
error (exact value unspecified by the spec). -/
noncomputable def BSM_PRICE_TOLERANCE : ℝ := 1 / 1000000

/-- Modelled from the spec: initial Newton-Raphson volatility guess
(value unspecified by the spec). -/
noncomputable def IV_INITIAL_GUESS : ℝ := 1 / 5

/-- Modelled from the spec: lower end of the bisection volatility bracket
(value unspecified by the spec). -/
noncomputable def IV_BRACKET_LOW : ℝ := 1 / 10000

/-- Modelled from the spec: upper end of the bisection volatility bracket
(value unspecified by the spec). -/
def IV_BRACKET_HIGH : ℝ := 5

/-- Modelled from the spec: inputs of `solve_implied_volatility` —
`PricingInputs` with an observed market price in place of volatility. -/
structure IVInputs where
  spot : ℝ
  strike : ℝ
  tau : ℝ
  rate : ℝ
  optType : OptionType
  price : ℝ

/-- Modelled from the spec: the European no-arbitrage lower price bound
(not the naive American-style intrinsic value): `max(0, S - K e^{-rT})`
for calls and `max(0, K e^{-rT} - S)` for puts. -/
noncomputable def europeanLowerBound (q : IVInputs) : ℝ :=
  match q.optType with
  | .call => max 0 (q.spot - q.strike * Real.exp (-q.rate * q.tau))
  | .put => max 0 (q.strike * Real.exp (-q.rate * q.tau) - q.spot)

/-- BSM price of the observed contract as a function of volatility — the
objective function inverted by the IV solver. -/
noncomputable def ivObjective (q : IVInputs) (σ : ℝ) : ℝ :=
  bsmPrice ⟨q.spot, q.strike, q.tau, q.rate, σ, q.optType⟩

/-- BSM vega of the observed contract as a function of volatility. -/
noncomputable def ivVega (q : IVInputs) (σ : ℝ) : ℝ :=
  bsmVega ⟨q.spot, q.strike, q.tau, q.rate, σ, q.optType⟩

/-- Error outcomes of the IV solver, per the spec error taxonomy. -/
inductive IVError where
  | priceBelowLowerBound
  | convergenceFailure
  deriving DecidableEq, Repr

/-- Modelled from the spec: fuel-bounded Newton-Raphson iteration.
Returns the final iterate together with the number of Newton steps
actually taken, so iteration counts are part of the model. -/
noncomputable def newtonIterate (f fd : ℝ → ℝ) (target tol : ℝ) :
    Nat → ℝ → ℝ × Nat
  | 0, x => (x, 0)
  | n + 1, x =>
    if |f x - target| < tol then (x, 0)
    else
      let rest := newtonIterate f fd target tol n (x - (f x - target) / fd x)
      (rest.1, rest.2 + 1)

/-- Modelled from the spec: fuel-bounded bisection over a bracket,
returning the midpoint iterate and the number of bisection steps taken. -/
noncomputable def bisectIterate (f : ℝ → ℝ) (target tol : ℝ) :
    Nat → ℝ → ℝ → ℝ × Nat
  | 0, lo, hi => ((lo + hi) / 2, 0)
  | n + 1, lo, hi =>
    let mid := (lo + hi) / 2
    if |f mid - target| < tol then (mid, 0)
    else if (f lo - target) * (f mid - target) < 0 then
      let rest := bisectIterate f target tol n lo mid
      (rest.1, rest.2 + 1)
    else
      let rest := bisectIterate f target tol n mid hi
      (rest.1, rest.2 + 1)

/-- Modelled from the spec: `solve_implied_volatility`.  Validates the
observed price against the European lower bound before any iteration,
then runs Newton-Raphson capped at `BSM_MAX_ITERATIONS`, falling back to
bisection capped at `BISECTION_MAX_ITERATIONS`.  The result is paired
with the Newton and bisection iteration counts used, so the bounded-work
guarantee is expressible. -/
noncomputable def solve_implied_volatility (q : IVInputs) :
    Except IVError ℝ × Nat × Nat :=
  if q.price < europeanLowerBound q then
    (Except.error .priceBelowLowerBound, 0, 0)
  else
    let nr := newtonIterate (ivObjective q) (ivVega q) q.price
      BSM_PRICE_TOLERANCE BSM_MAX_ITERATIONS IV_INITIAL_GUESS
    if |ivObjective q nr.1 - q.price| < BSM_PRICE_TOLERANCE then
      (Except.ok nr.1, nr.2, 0)
    else
      let bi := bisectIterate (ivObjective q) q.price BSM_PRICE_TOLERANCE
        BISECTION_MAX_ITERATIONS IV_BRACKET_LOW IV_BRACKET_HIGH
      if |ivObjective q bi.1 - q.price| < BSM_PRICE_TOLERANCE then
        (Except.ok bi.1, nr.2, bi.2)
      else
        (Except.error .convergenceFailure, nr.2, bi.2)

/-! ## Compositor (scoring.py, modelled from the spec) -/

/-- Modelled from the spec: the named `weighted_geometric_mean` function
of `scoring.py`, computed as `exp(sum(w * log(x)))` over (weight, score)
pairs. -/
noncomputable def weighted_geometric_mean (ws : List (ℝ × ℝ)) : ℝ :=
  Real.exp (ws.foldl (fun acc p => acc + p.1 * Real.log p.2) 0)

/-- Modelled from the spec: zero-valued normalized scores are clamped to
a small positive epsilon before the geometric-mean computation. -/
noncomputable def clampZeroScores (eps : ℝ) (ws : List (ℝ × ℝ)) :
    List (ℝ × ℝ) :=
  ws.map fun p => (p.1, if p.2 = 0 then eps else p.2)

/-- Modelled from the spec: final clamp of a composite score to
[0, 100]. -/
noncomputable def clampScore (x : ℝ) : ℝ :=
  max 0 (min 100 x)

/-- Modelled from the spec: `scoring.py`'s `composite_score` — the
weighted geometric mean of the epsilon-clamped normalized scores, with
the final result clamped to [0, 100]. -/
noncomputable def composite_score (eps : ℝ) (ws : List (ℝ × ℝ)) : ℝ :=
  clampScore (weighted_geometric_mean (clampZeroScores eps ws))

/-- Modelled from the spec: the small positive epsilon used by
`score_universe` (exact value unspecified by the spec). -/
noncomputable def SCORE_EPSILON : ℝ := 1 / 1000000

/-- Documented `scoring.py` constant: the composite-score inclusion
threshold. -/
def MIN_COMPOSITE_SCORE : ℝ := 50

/-- Modelled from the spec: the rank-bearing fields of `TickerScore`
(ticker symbol, composite score, dense 1-based rank); the per-indicator
breakdown and directional signal carried by the full record are not
needed by the ranking claims. -/
structure TickerScore where
  ticker : String
  score : ℝ
  rank : Nat

/-- Modelled from the spec: the sort key of the ranking — composite score
descending, ties broken by ticker symbol ascending. -/
noncomputable def scoreSortLE (a b : String × ℝ) : Bool :=
  decide (b.2 < a.2) || (decide (a.2 = b.2) && decide (a.1 ≤ b.1))

/-- Modelled from the spec: dense 1-based rank assignment along the
sorted order. -/
def assignRanks : Nat → List (String × ℝ) → List TickerScore
  | _, [] => []
  | n, p :: rest => ⟨p.1, p.2, n⟩ :: assignRanks (n + 1) rest

/-- Modelled from the spec: `scoring.py`'s `score_universe` — composite
score per ticker, exclusion of tickers below `MIN_COMPOSITE_SCORE`,
deterministic sort by score descending with ticker-ascending tie-breaks,
and dense 1-based rank assignment.  The input table carries each
ticker's (weight, normalized score) pairs. -/
noncomputable def score_universe (table : List (String × List (ℝ × ℝ))) :
    List TickerScore :=
  let scored := table.map fun t => (t.1, composite_score SCORE_EPSILON t.2)
  let included := scored.filter fun p => decide (MIN_COMPOSITE_SCORE ≤ p.2)
  assignRanks 1 (included.mergeSort scoreSortLE)

/-- C1: when ADX is below `ADX_TREND_THRESHOLD` (15.0) the direction
classifier returns NEUTRAL regardless of the RSI and SMA-alignment
inputs. -/
theorem determine_direction_neutral_below_adx_threshold
    (adx rsi sma_alignment : ℚ) (h : adx < ADX_TREND_THRESHOLD) :
    determine_direction adx rsi sma_alignment = .neutral := by
  unfold determine_direction
  rw [if_pos h]

/-- Witness for C1: `determine_direction(ADX=10, RSI=70, SMA=+1)` is
NEUTRAL, with the threshold hypothesis discharged concretely. -/
theorem determine_direction_neutral_below_adx_threshold_witness :
    (10 : ℚ) < ADX_TREND_THRESHOLD ∧
      determine_direction 10 70 1 = .neutral :=
  ⟨by decide,
    determine_direction_neutral_below_adx_threshold 10 70 1 (by decide)⟩

/-- C2: at or above the ADX threshold, the classifier returns BULLISH
exactly when RSI exceeds 50 and SMA-alignment is positive, BEARISH exactly
when RSI is below 50 and SMA-alignment is negative, and NEUTRAL whenever
the two signals conflict. -/
theorem determine_direction_above_threshold_cases
    (adx rsi sma_alignment : ℚ) (h : ADX_TREND_THRESHOLD ≤ adx) :
    (determine_direction adx rsi sma_alignment = .bullish ↔
        (50 < rsi ∧ 0 < sma_alignment)) ∧
      (determine_direction adx rsi sma_alignment = .bearish ↔
        (rsi < 50 ∧ sma_alignment < 0)) ∧
      (¬(50 < rsi ∧ 0 < sma_alignment) → ¬(rsi < 50 ∧ sma_alignment < 0) →
        determine_direction adx rsi sma_alignment = .neutral) := by
  unfold determine_direction
  rw [if_neg (not_lt.mpr h)]
  by_cases hb : 50 < rsi ∧ 0 < sma_alignment
  · rw [if_pos hb]
    refine ⟨by simp [hb], ?_, fun hc _ => absurd hb hc⟩
    constructor
    · intro hcontra
      exact absurd hcontra (by decide)
    · rintro ⟨h1, h2⟩
      exact absurd hb.1 (not_lt.mpr h1.le)
  · rw [if_neg hb]
    by_cases hr : rsi < 50 ∧ sma_alignment < 0
    · rw [if_pos hr]
      exact ⟨by simp [hb], by simp [hr], fun _ hc => absurd hr hc⟩
    · rw [if_neg hr]
      exact ⟨by simp [hb], by simp [hr], fun _ _ => rfl⟩

/-- Witness for C2: `determine_direction(25, 65, +1)` is BULLISH and
`determine_direction(25, 35, -1)` is BEARISH, hypotheses discharged
concretely. -/
theorem determine_direction_above_threshold_cases_witness :
    determine_direction 25 65 1 = .bullish ∧
      determine_direction 25 35 (-1) = .bearish :=
  ⟨((determine_direction_above_threshold_cases 25 65 1 (by decide)).1).mpr
      (by decide),
    ((determine_direction_above_threshold_cases 25 35 (-1)
      (by decide)).2.1).mpr (by decide)⟩

/-- C7: both direction classifiers are pure total functions into the
three-valued signal: the backend `determine_direction` always yields one
of BULLISH, BEARISH or NEUTRAL, and the front-end `getDirection` heuristic
always yields one of the strings "Bullish", "Bearish" or "Neutral". -/
theorem direction_classifier_total :
    (∀ adx rsi sma_alignment : ℚ,
        determine_direction adx rsi sma_alignment = .bullish ∨
          determine_direction adx rsi sma_alignment = .bearish ∨
          determine_direction adx rsi sma_alignment = .neutral) ∧
      (∀ signals : String → Option ℚ,
        getDirection signals = "Bullish" ∨ getDirection signals = "Bearish" ∨
          getDirection signals = "Neutral") := by
  constructor
  · intro adx rsi sma_alignment
    unfold determine_direction
    split_ifs <;> simp
  · intro signals
    simp only [getDirection]
    split_ifs <;> simp

/-- C9: `toDebateResult` always produces a completed result with empty
ticker and created_at, all three agent slots null, and an is_fallback
flag that is set exactly when the thesis's model_used contains the
substring "fallback" case-insensitively. -/
theorem toDebateResult_shape (thesis : TradeThesis) (id : Int) :
    (toDebateResult thesis id).status = .completed ∧
      (toDebateResult thesis id).ticker = "" ∧
      (toDebateResult thesis id).created_at = "" ∧
      (toDebateResult thesis id).agents_bull = none ∧
      (toDebateResult thesis id).agents_bear = none ∧
      (toDebateResult thesis id).agents_risk = none ∧
      ((toDebateResult thesis id).is_fallback = true ↔
        "fallback".data <:+: (jsToLowerCase thesis.model_used).data) := by
  refine ⟨rfl, rfl, rfl, rfl, rfl, rfl, ?_⟩
  simp [toDebateResult, jsIncludes]

/-- C10: the gauge position is within [0, 100] for conviction in [0, 1],
the neutral direction maps to exactly 50 for every conviction, and for a
fixed conviction the bullish and bearish positions are mirror images
summing to 100. -/
theorem meterPosition_bounds_and_symmetry :
    (∀ c : ℚ, 0 ≤ c → c ≤ 1 →
        ∀ d, 0 ≤ meterPosition d c ∧ meterPosition d c ≤ 100) ∧
      (∀ c : ℚ, meterPosition .neutral c = 50) ∧
      (∀ c : ℚ,
        meterPosition .bullish c + meterPosition .bearish c = 100) := by
  refine ⟨?_, fun c => rfl, fun c => by simp [meterPosition]; ring⟩
  intro c h0 h1 d
  cases d <;> simp [meterPosition] <;> constructor <;> linarith

/-- Witness for C10: the bounds at conviction 1/2 for the bullish
direction, hypotheses discharged concretely. -/
theorem meterPosition_bounds_and_symmetry_witness :
    0 ≤ meterPosition .bullish (1 / 2) ∧
      meterPosition .bullish (1 / 2) ≤ 100 :=
  meterPosition_bounds_and_symmetry.1 (1 / 2) (by norm_num) (by norm_num)
    .bullish

/-- Newton-Raphson never takes more steps than its fuel allows. -/
theorem newtonIterate_count_le (f fd : ℝ → ℝ) (target tol : ℝ) :
    ∀ (n : Nat) (x : ℝ), (newtonIterate f fd target tol n x).2 ≤ n := by
  intro n
  induction n with
  | zero => intro x; simp [newtonIterate]
  | succ n ih =>
    intro x
    rw [newtonIterate]
    split_ifs
    · exact Nat.zero_le _
    · exact Nat.succ_le_succ (ih _)

/-- Bisection never takes more steps than its fuel allows. -/
theorem bisectIterate_count_le (f : ℝ → ℝ) (target tol : ℝ) :
    ∀ (n : Nat) (lo hi : ℝ), (bisectIterate f target tol n lo hi).2 ≤ n := by
  intro n
  induction n with
  | zero => intro lo hi; simp [bisectIterate]
  | succ n ih =>
    intro lo hi
    rw [bisectIterate]
    split_ifs
    · exact Nat.zero_le _
    · exact Nat.succ_le_succ (ih _ _)
    · exact Nat.succ_le_succ (ih _ _)

/-- C4: the IV solver does bounded work on every input — at most
`BSM_MAX_ITERATIONS` (50) Newton-Raphson steps and at most
`BISECTION_MAX_ITERATIONS` (100) bisection steps. -/
theorem solve_implied_volatility_iteration_caps (q : IVInputs) :
    (solve_implied_volatility q).2.1 ≤ BSM_MAX_ITERATIONS ∧
      (solve_implied_volatility q).2.2 ≤ BISECTION_MAX_ITERATIONS := by
  simp only [solve_implied_volatility]
  split_ifs
  · exact ⟨Nat.zero_le _, Nat.zero_le _⟩
  · exact ⟨newtonIterate_count_le _ _ _ _ _ _, Nat.zero_le _⟩
  · exact ⟨newtonIterate_count_le _ _ _ _ _ _,
      bisectIterate_count_le _ _ _ _ _ _⟩
  · exact ⟨newtonIterate_count_le _ _ _ _ _ _,
      bisectIterate_count_le _ _ _ _ _ _⟩

/-- C5: an observed price strictly below the European lower bound is
rejected with `priceBelowLowerBound` before any Newton or bisection
iteration runs (both iteration counts are zero). -/
theorem solve_implied_volatility_rejects_below_bound (q : IVInputs)
    (h : q.price < europeanLowerBound q) :
    solve_implied_volatility q =
      (Except.error .priceBelowLowerBound, 0, 0) := by
  unfold solve_implied_volatility
  rw [if_pos h]

/-- Witness for C5: a call quoted at 1 with spot 100, strike 90, one year
to expiry and zero rate is below the European lower bound (10) and is
rejected with zero iterations. -/
theorem solve_implied_volatility_rejects_below_bound_witness :
    (1 : ℝ) < europeanLowerBound ⟨100, 90, 1, 0, .call, 1⟩ ∧
      solve_implied_volatility ⟨100, 90, 1, 0, .call, 1⟩ =
        (Except.error .priceBelowLowerBound, 0, 0) := by
  have hb : (1 : ℝ) < europeanLowerBound ⟨100, 90, 1, 0, .call, 1⟩ := by
    show (1 : ℝ) < max 0 (100 - 90 * Real.exp (-0 * 1))
    rw [show (-0 : ℝ) * 1 = 0 by norm_num, Real.exp_zero]
    exact lt_max_of_lt_right (by norm_num)
  exact ⟨hb, solve_implied_volatility_rejects_below_bound _ hb⟩

/-- C6: the pricing engine's theta is the annualized theta divided by 365
(per calendar day), and the Greeks table renders every non-null theta as
a signed per-day dollar impact: "-$" then the absolute value to four
decimal places then "/day" when theta is negative, "$" prefix
otherwise. -/
theorem theta_per_day_and_rendering :
    (∀ p : PricingInputs,
        (bsmGreeks p).theta = bsmThetaAnnual p / DAYS_PER_YEAR) ∧
      (∀ v : ℚ, v < 0 →
        thetaCellText (some v) = "-$" ++ toFixed4 |v| ++ "/day") ∧
      (∀ v : ℚ, 0 ≤ v →
        thetaCellText (some v) = "$" ++ toFixed4 |v| ++ "/day") := by
  refine ⟨fun p => rfl, ?_, ?_⟩
  · intro v hv
    show formatDollarImpact v "/day" = _
    unfold formatDollarImpact
    rw [if_pos hv]
    show "-" ++ ("$" ++ (toFixed4 |v| ++ "/day")) = _
    rw [← String.append_assoc]
    rfl
  · intro v hv
    show formatDollarImpact v "/day" = _
    unfold formatDollarImpact
    rw [if_neg (not_lt.mpr hv)]
    rfl

/-- Witness for C6: the negative and nonnegative rendering cases at the
concrete thetas -1/2 and 2, hypotheses discharged concretely. -/
theorem theta_per_day_and_rendering_witness :
    thetaCellText (some (-1 / 2 : ℚ)) = "-$" ++ toFixed4 |(-1 / 2 : ℚ)| ++
        "/day" ∧
      thetaCellText (some (2 : ℚ)) = "$" ++ toFixed4 |(2 : ℚ)| ++ "/day" :=
  ⟨theta_per_day_and_rendering.2.1 (-1 / 2) (by norm_num),
    theta_per_day_and_rendering.2.2 2 (by norm_num)⟩

/-- C3: for any positive epsilon the composite score is the clamped
weighted geometric mean of the epsilon-clamped scores, lies in (0, 100],
and in particular is never literal zero and never undefined — including
when some score is exactly 0 under a nonzero weight. -/
theorem composite_score_clamped_and_positive (eps : ℝ)
    (ws : List (ℝ × ℝ)) (heps : 0 < eps) :
    composite_score eps ws =
        clampScore (weighted_geometric_mean (clampZeroScores eps ws)) ∧
      0 < composite_score eps ws ∧ composite_score eps ws ≤ 100 := by
  refine ⟨rfl, ?_, ?_⟩
  · have hpos : 0 < weighted_geometric_mean (clampZeroScores eps ws) :=
      Real.exp_pos _
    unfold composite_score clampScore
    exact lt_max_of_lt_right (lt_min (by norm_num) hpos)
  · unfold composite_score clampScore
    exact max_le (by norm_num) (min_le_left _ _)

/-- Witness for C3: the score of a ticker whose single indicator has
weight 1 and normalized score exactly 0, at epsilon 1/1000, with the
positivity hypothesis discharged concretely. -/
theorem composite_score_clamped_and_positive_witness :
    composite_score (1 / 1000) [(1, 0)] =
        clampScore
          (weighted_geometric_mean (clampZeroScores (1 / 1000) [(1, 0)])) ∧
      0 < composite_score (1 / 1000) [(1, 0)] ∧
      composite_score (1 / 1000) [(1, 0)] ≤ 100 :=
  composite_score_clamped_and_positive (1 / 1000) [(1, 0)] (by norm_num)

/-- The sort key is transitive. -/
theorem scoreSortLE_trans :
    ∀ a b c : String × ℝ, scoreSortLE a b = true → scoreSortLE b c = true →
      scoreSortLE a c = true := by
  intro a b c h1 h2
  simp only [scoreSortLE, Bool.or_eq_true, Bool.and_eq_true,
    decide_eq_true_eq] at h1 h2 ⊢
  rcases h1 with h1 | ⟨h1e, h1t⟩
  · rcases h2 with h2 | ⟨h2e, h2t⟩
    · exact Or.inl (lt_trans h2 h1)
    · exact Or.inl (by rw [← h2e]; exact h1)
  · rcases h2 with h2 | ⟨h2e, h2t⟩
    · exact Or.inl (by rw [h1e]; exact h2)
    · exact Or.inr ⟨h1e.trans h2e, le_trans h1t h2t⟩

/-- The sort key is total. -/
theorem scoreSortLE_total :
    ∀ a b : String × ℝ, (scoreSortLE a b || scoreSortLE b a) = true := by
  intro a b
  simp only [scoreSortLE, Bool.or_eq_true, Bool.and_eq_true,
    decide_eq_true_eq]
  rcases lt_trichotomy a.2 b.2 with h | h | h
  · exact Or.inr (Or.inl h)
  · rcases le_total a.1 b.1 with ht | ht
    · exact Or.inl (Or.inr ⟨h, ht⟩)
    · exact Or.inr (Or.inr ⟨h.symm, ht⟩)
  · exact Or.inl (Or.inl h)

/-- Unfolding of the Boolean sort key into its ordering proposition. -/
theorem scoreSortLE_eq_true_iff (a b : String × ℝ) :
    scoreSortLE a b = true ↔
      (b.2 < a.2 ∨ (a.2 = b.2 ∧ a.1 ≤ b.1)) := by
  simp [scoreSortLE]

/-- Rank assignment hands out consecutive ranks starting at its seed. -/
theorem assignRanks_map_rank :
    ∀ (l : List (String × ℝ)) (n : Nat),
      (assignRanks n l).map TickerScore.rank = List.range' n l.length := by
  intro l
  induction l with
  | nil => intro n; simp [assignRanks]
  | cons p rest ih => intro n; simp [assignRanks, List.range'_succ, ih]

/-- Rank assignment preserves length. -/
theorem assignRanks_length :
    ∀ (l : List (String × ℝ)) (n : Nat),
      (assignRanks n l).length = l.length := by
  intro l
  induction l with
  | nil => intro n; simp [assignRanks]
  | cons p rest ih => intro n; simp [assignRanks, ih]

/-- Rank assignment only decorates the (ticker, score) pairs. -/
theorem assignRanks_map_pair :
    ∀ (l : List (String × ℝ)) (n : Nat),
      (assignRanks n l).map (fun ts => (ts.ticker, ts.score)) = l := by
  intro l
  induction l with
  | nil => intro n; simp [assignRanks]
  | cons p rest ih => intro n; simp [assignRanks, ih]

/-- C8: the ranked output of `score_universe` is sorted by composite
score descending with ties broken by ticker ascending, carries dense
1-based ranks with no duplicates, and is deterministic — identical
inputs produce identical output. -/
theorem score_universe_ranking (table : List (String × List (ℝ × ℝ))) :
    List.Pairwise
        (fun a b =>
          b.score < a.score ∨ (a.score = b.score ∧ a.ticker ≤ b.ticker))
        (score_universe table) ∧
      (score_universe table).map TickerScore.rank =
        List.range' 1 (score_universe table).length ∧
      (∀ other, table = other →
        score_universe table = score_universe other) := by
  refine ⟨?_, ?_, fun other h => by rw [h]⟩
  · show List.Pairwise _ (assignRanks 1
      (((table.map fun t => (t.1, composite_score SCORE_EPSILON t.2)).filter
        fun p => decide (MIN_COMPOSITE_SCORE ≤ p.2)).mergeSort scoreSortLE))
    set l := ((table.map fun t =>
      (t.1, composite_score SCORE_EPSILON t.2)).filter
        fun p => decide (MIN_COMPOSITE_SCORE ≤ p.2)) with hl
    have hsorted : (l.mergeSort scoreSortLE).Pairwise
        (fun a b => scoreSortLE a b = true) :=
      List.sorted_mergeSort scoreSortLE_trans scoreSortLE_total l
    rw [← assignRanks_map_pair (l.mergeSort scoreSortLE) 1] at hsorted
    exact (List.pairwise_map.mp hsorted).imp
      (fun h => (scoreSortLE_eq_true_iff _ _).mp h)
  · show (assignRanks 1 _).map TickerScore.rank =
      List.range' 1 ((assignRanks 1 _).length)
    rw [assignRanks_map_rank, assignRanks_length]

/-- Witness for C8: the ranking properties at the empty universe, with
the determinism hypothesis discharged by reflexivity. -/
theorem score_universe_ranking_witness :
    (score_universe []).map TickerScore.rank =
        List.range' 1 (score_universe []).length ∧
      score_universe [] = score_universe [] :=
  ⟨(score_universe_ranking []).2.1, (score_universe_ranking []).2.2 [] rfl⟩

end OptionAlpha
